import Mathlib

/-!
Verification of the daNomNoms food-delivery backend.

This file shallowly embeds the Python sources (`models.py`, `database.py`,
`routers/restaurants.py`, `routers/agent.py`, `routers/doordash.py`) in Lean.
Numeric values (Python `int`/`float`) are modelled as exact rationals `ℚ`;
all concrete prices and fees appearing in the spec are short decimals on
which exact rational arithmetic and double-precision arithmetic agree.
Heterogeneous JSON-ish values (`None`, number, string) are modelled by the
`PyVal` type. Fallible routes return `Except HErr _`, where `HErr` carries
the HTTP status and the detail string of the raised `HTTPException`.
-/

/-- A Python value that may be `None`, a number (`int`/`float`), or a string.
This is the input domain of the ad-hoc field normalizers. -/
inductive PyVal where
  | none : PyVal
  | num : ℚ → PyVal
  | str : String → PyVal
deriving DecidableEq, Repr

/-- Numeric value of a decimal digit character. -/
def digitVal (c : Char) : ℕ := c.toNat - 48

/-- Value of a run of decimal digits, most significant first
(the value of `int(<digits>)` in Python). -/
def natOfDigits (l : List Char) : ℕ := l.foldl (fun a c => 10 * a + digitVal c) 0

/-- Value of `float("<ip>.<fp>")` for digit runs `ip` and `fp`
(`fp` may be empty: `float("12.") = 12.0`). -/
def numOfParts (ip fp : List Char) : ℚ :=
  (natOfDigits ip : ℚ) + (natOfDigits fp : ℚ) / (10 : ℚ) ^ fp.length

/-- Embeds `re.search(r'(\d+\.?\d*)', s)` followed by `float` on the captured group:
the leftmost maximal digit run, optionally followed by a dot and a further
digit run, read as a decimal number.  `None` when `s` has no digit.
The delivery-fee pattern in the source carries an extra optional `\$?` before
the capture group; since the dollar sign is optional and contributes nothing
to group 1, the captured text (the leftmost digit run with optional decimal
tail) is identical for both patterns, so both are embedded by this function. -/
def scanNumber : List Char → Option ℚ
  | [] => Option.none
  | c :: rest =>
    if c.isDigit then
      let ip := (c :: rest).takeWhile Char.isDigit
      let r1 := (c :: rest).dropWhile Char.isDigit
      let fp := match r1 with
        | '.' :: r2 => r2.takeWhile Char.isDigit
        | _ => ([] : List Char)
      some (numOfParts ip fp)
    else scanNumber rest

/-- Embeds `re.search(r'(\d+)', s)` followed by `int` on the captured group:
the leftmost maximal digit run read as an integer. -/
def scanDigits : List Char → Option ℕ
  | [] => Option.none
  | c :: rest =>
    if c.isDigit then some (natOfDigits ((c :: rest).takeWhile Char.isDigit))
    else scanDigits rest

/-- Embeds `routers/restaurants.py: parse_delivery_fee` — calculation-facing fee
normalizer: `None` and unparseable strings fall back to `0.0`, numbers pass
through, strings yield their first decimal-number token. -/
def parse_delivery_fee (v : PyVal) : ℚ :=
  match v with
  | .none => 0
  | .num q => q
  | .str s =>
    match scanNumber s.data with
    | some q => q
    | Option.none => 0

/-- Embeds `routers/restaurants.py: parse_price` — calculation-facing price
normalizer, same fallback-to-zero policy. -/
def parse_price (v : PyVal) : ℚ :=
  match v with
  | .none => 0
  | .num q => q
  | .str s =>
    match scanNumber s.data with
    | some q => q
    | Option.none => 0

namespace RestaurantResponse

/-- Embeds `models.py: RestaurantResponse.parse_delivery_fee` — model-facing fee
validator: numbers pass through, parseable strings become numbers,
everything else (including `None` and unparseable strings) is returned
unchanged. -/
def parse_delivery_fee (v : PyVal) : PyVal :=
  match v with
  | .none => .none
  | .num q => .num q
  | .str s =>
    match scanNumber s.data with
    | some q => .num q
    | Option.none => .str s

/-- True for the characters stripped by Python `str.strip('()')`. -/
def isParen (c : Char) : Bool := c = '(' || c = ')'

/-- Python `s.strip('()')`: drop all leading and trailing parenthesis
characters. -/
def stripParens (l : List Char) : List Char :=
  ((l.dropWhile isParen).reverse.dropWhile isParen).reverse

/-- Whether the list starts with the two characters `k+`. -/
def startsKPlus : List Char → Bool
  | 'k' :: '+' :: _ => true
  | _ => false

/-- Python `'k+' in s`: substring containment of `k+`. -/
def containsKPlus : List Char → Bool
  | [] => false
  | c :: rest => startsKPlus (c :: rest) || containsKPlus rest

/-- Embeds `models.py: RestaurantResponse.parse_number_of_ratings` — strips
surrounding parentheses; on a `k+` marker (checked on the lowercased text)
multiplies the leading decimal number by 1000 and truncates to an integer
(`int(float(...) * 1000)`; the values are nonnegative so truncation is the
floor); otherwise extracts the first digit run; otherwise returns the
original value unchanged. -/
def parse_number_of_ratings (v : PyVal) : PyVal :=
  match v with
  | .str s =>
    let clean := stripParens s.data
    if containsKPlus (clean.map Char.toLower) then
      match scanNumber clean with
      | some q => .num ((⌊q * 1000⌋ : ℤ) : ℚ)
      | Option.none =>
        match scanDigits clean with
        | some n => .num (n : ℚ)
        | Option.none => .str s
    else
      match scanDigits clean with
      | some n => .num (n : ℚ)
      | Option.none => .str s
  | w => w

end RestaurantResponse

namespace MenuItemResponse

/-- Embeds `models.py: MenuItemResponse.parse_price` — model-facing price
validator: numbers pass through as floats, parseable strings become
numbers, everything else is returned unchanged. -/
def parse_price (v : PyVal) : PyVal :=
  match v with
  | .none => .none
  | .num q => .num q
  | .str s =>
    match scanNumber s.data with
    | some q => .num q
    | Option.none => .str s

end MenuItemResponse

/-- The number `q` that a value parses to, when it is parseable: a numeric
value parses to itself, a string parses via the decimal-token search.
`None` and digit-free strings are unparseable. -/
def parseableAs (v : PyVal) : Option ℚ :=
  match v with
  | .none => Option.none
  | .num q => some q
  | .str s => scanNumber s.data

/-- Python `round(x, 2)`: round to two decimal places, ties to even
(banker's rounding). None of the concrete values in this development sit on
a tie, for which double rounding could deviate from exact-rational
rounding. -/
def round2 (q : ℚ) : ℚ :=
  ((if 100 * q - (⌊100 * q⌋ : ℚ) < 1 / 2 then ⌊100 * q⌋
    else if 1 / 2 < 100 * q - (⌊100 * q⌋ : ℚ) then ⌊100 * q⌋ + 1
    else if ⌊100 * q⌋ % 2 = 0 then ⌊100 * q⌋ else ⌊100 * q⌋ + 1 : ℤ) : ℚ) / 100

/-- Evaluation rule for `round2` in the round-down regime: if `100 * q` lies
within `[n, n + 1/2)` for an integer `n`, then `q` rounds to `n / 100`. -/
theorem round2_eq_down (q : ℚ) (n : ℤ) (h1 : (n : ℚ) ≤ 100 * q)
    (h2 : 100 * q - (n : ℚ) < 1 / 2) : round2 q = (n : ℚ) / 100 := by
  have hf : ⌊(100 : ℚ) * q⌋ = n := by
    rw [Int.floor_eq_iff]
    constructor
    · exact h1
    · linarith
  unfold round2
  rw [hf, if_pos (by linarith : 100 * q - (n : ℚ) < 1 / 2)]

example : parse_price (.str "$$16.99") = 1699 / 100 := by
  rw [show parse_price (.str "$$16.99")
      = numOfParts ['1', '6'] ['9', '9'] from rfl]
  norm_num [numOfParts, show natOfDigits ['1', '6'] = 16 from by decide,
    show natOfDigits ['9', '9'] = 99 from by decide]

example : parse_price (.str "free") = 0 := rfl

example : parse_delivery_fee (.str "$2.99 delivery") = 299 / 100 := by
  rw [show parse_delivery_fee (.str "$2.99 delivery")
      = numOfParts ['2'] ['9', '9'] from rfl]
  norm_num [numOfParts, show natOfDigits ['2'] = 2 from by decide,
    show natOfDigits ['9', '9'] = 99 from by decide]

example : round2 (26333 / 10000) = 263 / 100 := by
  rw [round2_eq_down (26333 / 10000) 263 (by norm_num) (by norm_num)]
  norm_num

/-!
Data access layer (`database.py`) and cart endpoints (`routers/restaurants.py`)

The Mongo collections are modelled as partial maps from `_id` strings to
documents; a document's `_id` is the key it is stored under, so query
results are returned as `(key, document)` pairs. `bson.ObjectId(s)` raises
on any string that is not 24 hexadecimal characters; the data-access layer
catches that and reports absent/empty instead.
-/

/-- A menu-item document (`items` collection): the fields `build_cart`
reads. -/
structure ItemDoc where
  name : Option String
  descr : Option String
  price : PyVal
deriving DecidableEq, Repr

/-- A restaurant document (`restaurants` collection): the fields the cart
endpoints read. -/
structure RestaurantDoc where
  name : Option String
  delivery_fee : PyVal
deriving DecidableEq, Repr

/-- The document store: two collections keyed by `_id` string. -/
structure DB where
  restaurants : String → Option RestaurantDoc
  items : String → Option ItemDoc

/-- Whether `bson.ObjectId(s)` succeeds: `s` is exactly 24 hex digits. -/
def isValidObjectId (s : String) : Bool :=
  s.length = 24 && s.data.all (fun c =>
    c.isDigit || (('a' ≤ c && c ≤ 'f') || ('A' ≤ c && c ≤ 'F')))

/-- Embeds `database.py: DatabaseService.get_restaurant_by_id` — `ObjectId`
conversion failure is swallowed and reported as `None`. -/
def get_restaurant_by_id (db : DB) (restaurant_id : String) : Option RestaurantDoc :=
  if isValidObjectId restaurant_id then db.restaurants restaurant_id else Option.none

/-- Embeds `database.py: DatabaseService.get_items_by_ids` — all ids are converted
to `ObjectId` first, so one malformed id fails the whole batch, which the
handler reports as the empty list; the `$in` query returns each matching
document once (set semantics), modelled by deduplicating the requested ids.
The order of the returned documents is irrelevant downstream (the handlers
only take the length and build a dictionary keyed by `_id`). -/
def get_items_by_ids (db : DB) (item_ids : List String) : List (String × ItemDoc) :=
  if item_ids.all isValidObjectId then
    item_ids.dedup.filterMap (fun i => (db.items i).map (fun d => (i, d)))
  else []

/-- Lookup in the `items_map` dictionary built from a batch query result. -/
def lookupItem (items_map : List (String × ItemDoc)) (k : String) : Option ItemDoc :=
  (items_map.find? (fun p => p.1 == k)).map (fun p => p.2)

/-- Embeds `models.py: CartItem` — one request line: item reference and quantity
(the schema validates `quantity ≥ 1`). -/
structure CartItem where
  item_id : String
  quantity : ℕ
deriving DecidableEq, Repr

/-- Embeds `models.py: BuildCartRequest`. -/
structure BuildCartRequest where
  restaurant_id : String
  items : List CartItem
deriving DecidableEq, Repr

/-- Embeds `models.py: CostEstimateRequest` (same shape as `BuildCartRequest`). -/
structure CostEstimateRequest where
  restaurant_id : String
  items : List CartItem
deriving DecidableEq, Repr

/-- An `HTTPException`: status code and detail string. -/
structure HErr where
  status : ℕ
  detail : String
deriving DecidableEq, Repr

/-- Embeds `models.py: CartItemDetail`. -/
structure CartItemDetail where
  item_id : String
  name : Option String
  descr : Option String
  price : ℚ
  quantity : ℕ
  subtotal : ℚ
deriving DecidableEq, Repr

/-- Embeds `models.py: CartResponse`. -/
structure CartResponse where
  restaurant_id : String
  restaurant_name : Option String
  items : List CartItemDetail
  subtotal : ℚ
  delivery_fee : Option ℚ
  total : ℚ
deriving DecidableEq, Repr

/-- Embeds `models.py: CostEstimateResponse`. -/
structure CostEstimateResponse where
  restaurant_id : String
  restaurant_name : Option String
  subtotal : ℚ
  delivery_fee : Option ℚ
  estimated_total : ℚ
  estimated_tax : Option ℚ
deriving DecidableEq, Repr

/-- The per-item loop of `build_cart`: resolve each line in the `items_map`
dictionary (400 naming the specific id when absent), price it, and
accumulate the line details and the cart subtotal. -/
def buildCartLines (items_map : List (String × ItemDoc)) :
    List CartItem → Except HErr (List CartItemDetail × ℚ)
  | [] => .ok ([], 0)
  | l :: rest =>
    match lookupItem items_map l.item_id with
    | Option.none => .error ⟨400, "Item " ++ l.item_id ++ " not found"⟩
    | some d =>
      match buildCartLines items_map rest with
      | .error e => .error e
      | .ok (ls, s) =>
        let p := parse_price d.price
        .ok (⟨l.item_id, d.name, d.descr, p, l.quantity, p * (l.quantity : ℚ)⟩ :: ls,
             p * (l.quantity : ℚ) + s)

/-- Embeds `routers/restaurants.py: build_cart` (POST `/cart`). -/
def build_cart (db : DB) (request : BuildCartRequest) : Except HErr CartResponse :=
  match get_restaurant_by_id db request.restaurant_id with
  | Option.none => .error ⟨404, "Restaurant not found"⟩
  | some r =>
    let item_ids := request.items.map (fun l => l.item_id)
    let items_data := get_items_by_ids db item_ids
    if items_data.length ≠ item_ids.length then
      .error ⟨400, "One or more items not found or invalid"⟩
    else
      match buildCartLines items_data request.items with
      | .error e => .error e
      | .ok (cart_items, subtotal) =>
        let delivery_fee := parse_delivery_fee r.delivery_fee
        .ok ⟨request.restaurant_id, r.name, cart_items,
             round2 subtotal,
             if delivery_fee = 0 then Option.none else some (round2 delivery_fee),
             round2 (subtotal + delivery_fee)⟩

/-- The fixed 8.5% tax rate of the cost-estimate endpoint. -/
def tax_rate : ℚ := 85 / 1000

/-- The per-item loop of `compute_cost_estimate`: accumulate the subtotal
only. -/
def estimateSubtotal (items_map : List (String × ItemDoc)) :
    List CartItem → Except HErr ℚ
  | [] => .ok 0
  | l :: rest =>
    match lookupItem items_map l.item_id with
    | Option.none => .error ⟨400, "Item " ++ l.item_id ++ " not found"⟩
    | some d =>
      match estimateSubtotal items_map rest with
      | .error e => .error e
      | .ok s => .ok (parse_price d.price * (l.quantity : ℚ) + s)

/-- Embeds `routers/restaurants.py: compute_cost_estimate` (POST `/cost-estimate`):
tax and total are computed from the unrounded subtotal (and unrounded tax),
and every reported field is rounded independently. -/
def compute_cost_estimate (db : DB) (request : CostEstimateRequest) :
    Except HErr CostEstimateResponse :=
  match get_restaurant_by_id db request.restaurant_id with
  | Option.none => .error ⟨404, "Restaurant not found"⟩
  | some r =>
    let item_ids := request.items.map (fun l => l.item_id)
    let items_data := get_items_by_ids db item_ids
    if items_data.length ≠ item_ids.length then
      .error ⟨400, "One or more items not found or invalid"⟩
    else
      match estimateSubtotal items_data request.items with
      | .error e => .error e
      | .ok subtotal =>
        let delivery_fee := parse_delivery_fee r.delivery_fee
        let estimated_tax := subtotal * tax_rate
        let estimated_total := subtotal + delivery_fee + estimated_tax
        .ok ⟨request.restaurant_id, r.name,
             round2 subtotal,
             if delivery_fee = 0 then Option.none else some (round2 delivery_fee),
             round2 estimated_total,
             some (round2 estimated_tax)⟩

/-- The price of a request line looked up directly in the item collection
(`PyVal.none`, hence price `0`, when absent — only used under hypotheses
that rule absence out). -/
def linePrice (db : DB) (l : CartItem) : ℚ :=
  parse_price ((db.items l.item_id).elim PyVal.none ItemDoc.price)

/-- Direct form of the cart subtotal: sum of normalized unit price times
quantity over the request lines. -/
def cartSubtotal (db : DB) (lines : List CartItem) : ℚ :=
  (lines.map (fun l => linePrice db l * (l.quantity : ℚ))).sum

/-- Direct form of one line of the cart response. -/
def lineDetail (db : DB) (l : CartItem) : CartItemDetail :=
  let d := (db.items l.item_id).getD ⟨Option.none, Option.none, PyVal.none⟩
  ⟨l.item_id, d.name, d.descr, parse_price d.price, l.quantity,
   parse_price d.price * (l.quantity : ℚ)⟩

lemma length_filterMap_pair (db : DB) (l : List String)
    (h : ∀ i ∈ l, (db.items i).isSome = true) :
    (l.filterMap (fun j => (db.items j).map (fun e => (j, e)))).length = l.length := by
  induction l with
  | nil => rfl
  | cons a t ih =>
    have ha := h a (List.mem_cons_self a t)
    cases hd : db.items a with
    | none => rw [hd] at ha; cases ha
    | some e =>
      rw [List.filterMap_cons_some (b := (a, e)) (by simp [hd])]
      simp only [List.length_cons]
      rw [ih (fun i hi => h i (List.mem_cons_of_mem a hi))]

lemma lookupItem_filterMap (db : DB) (l : List String) (i : String) (d : ItemDoc)
    (hnd : l.Nodup) (hmem : i ∈ l) (hd : db.items i = some d) :
    lookupItem (l.filterMap (fun j => (db.items j).map (fun e => (j, e)))) i = some d := by
  induction l with
  | nil => cases hmem
  | cons a t ih =>
    rcases List.mem_cons.mp hmem with h | h
    · subst h
      rw [List.filterMap_cons_some (b := (i, d)) (by simp [hd])]
      simp [lookupItem]
    · have hne : a ≠ i := by
        rintro rfl
        exact (List.nodup_cons.mp hnd).1 h
      have iht := ih (List.nodup_cons.mp hnd).2 h
      cases ha : db.items a with
      | none =>
        rw [List.filterMap_cons_none (by simp [ha])]
        exact iht
      | some e =>
        rw [lookupItem] at iht
        rw [List.filterMap_cons_some (b := (a, e)) (by simp [ha]), lookupItem,
          List.find?_cons_of_neg _ (by simp [hne])]
        exact iht

lemma buildCartLines_eq (db : DB) (imap : List (String × ItemDoc)) (lines : List CartItem)
    (h : ∀ l ∈ lines, lookupItem imap l.item_id = db.items l.item_id ∧
        (db.items l.item_id).isSome = true) :
    buildCartLines imap lines = .ok (lines.map (lineDetail db), cartSubtotal db lines) := by
  induction lines with
  | nil => simp [buildCartLines, cartSubtotal]
  | cons l t ih =>
    obtain ⟨hl, hs⟩ := h l (List.mem_cons_self l t)
    obtain ⟨d, hd⟩ := Option.isSome_iff_exists.mp hs
    rw [buildCartLines, hl, hd, ih (fun x hx => h x (List.mem_cons_of_mem l hx))]
    simp [lineDetail, cartSubtotal, linePrice, hd]

lemma estimateSubtotal_eq (db : DB) (imap : List (String × ItemDoc)) (lines : List CartItem)
    (h : ∀ l ∈ lines, lookupItem imap l.item_id = db.items l.item_id ∧
        (db.items l.item_id).isSome = true) :
    estimateSubtotal imap lines = .ok (cartSubtotal db lines) := by
  induction lines with
  | nil => simp [estimateSubtotal, cartSubtotal]
  | cons l t ih =>
    obtain ⟨hl, hs⟩ := h l (List.mem_cons_self l t)
    obtain ⟨d, hd⟩ := Option.isSome_iff_exists.mp hs
    rw [estimateSubtotal, hl, hd, ih (fun x hx => h x (List.mem_cons_of_mem l hx))]
    simp [cartSubtotal, linePrice, hd]

/-- On a fully resolvable, duplicate-free request, the batch query returns
a pair for every requested id, in request order. -/
lemma get_items_by_ids_resolved (db : DB) (ids : List String)
    (hval : ∀ i ∈ ids, isValidObjectId i = true)
    (hpres : ∀ i ∈ ids, (db.items i).isSome = true)
    (hnd : ids.Nodup) :
    get_items_by_ids db ids
      = ids.filterMap (fun j => (db.items j).map (fun e => (j, e))) ∧
    (get_items_by_ids db ids).length = ids.length := by
  have hall : ids.all isValidObjectId = true := List.all_eq_true.mpr hval
  have hded : ids.dedup = ids := List.dedup_eq_self.mpr hnd
  constructor
  · rw [get_items_by_ids, if_pos hall, hded]
  · rw [get_items_by_ids, if_pos hall, hded]
    exact length_filterMap_pair db ids hpres

/-- C1: on a cart request whose restaurant resolves and whose item lines
are all valid, present and pairwise distinct, `build_cart` prices each line
as normalized unit price times quantity, accumulates the cart subtotal,
reports `total = subtotal + fee` rounded to 2 decimals, and omits the
`delivery_fee` field exactly when the normalized fee is zero.  The witness
instantiates this at two items priced 12.99 (quantity 2) and 5.00
(quantity 1) with restaurant fee "$2.99 delivery", yielding subtotal 30.98,
fee 2.99, total 33.97. -/
theorem build_cart_spec (db : DB) (req : BuildCartRequest) (r : RestaurantDoc)
    (hr : get_restaurant_by_id db req.restaurant_id = some r)
    (hval : ∀ l ∈ req.items, isValidObjectId l.item_id = true)
    (hpres : ∀ l ∈ req.items, (db.items l.item_id).isSome = true)
    (hnd : (req.items.map (fun l => l.item_id)).Nodup) :
    build_cart db req
      = .ok ⟨req.restaurant_id, r.name, req.items.map (lineDetail db),
          round2 (cartSubtotal db req.items),
          if parse_delivery_fee r.delivery_fee = 0 then Option.none
          else some (round2 (parse_delivery_fee r.delivery_fee)),
          round2 (cartSubtotal db req.items + parse_delivery_fee r.delivery_fee)⟩ := by
  have hvi : ∀ i ∈ req.items.map (fun l => l.item_id), isValidObjectId i = true := by
    intro i hi
    obtain ⟨l, hl, rfl⟩ := List.mem_map.mp hi
    exact hval l hl
  have hpi : ∀ i ∈ req.items.map (fun l => l.item_id), (db.items i).isSome = true := by
    intro i hi
    obtain ⟨l, hl, rfl⟩ := List.mem_map.mp hi
    exact hpres l hl
  obtain ⟨hdata, hlen⟩ := get_items_by_ids_resolved db _ hvi hpi hnd
  have hlines :
      buildCartLines (get_items_by_ids db (req.items.map (fun l => l.item_id))) req.items
        = .ok (req.items.map (lineDetail db), cartSubtotal db req.items) := by
    apply buildCartLines_eq
    intro l hl
    obtain ⟨d, hd⟩ := Option.isSome_iff_exists.mp (hpres l hl)
    refine ⟨?_, hpres l hl⟩
    rw [hdata, lookupItem_filterMap db _ _ d hnd (List.mem_map_of_mem _ hl) hd, hd]
  simp only [build_cart, hr, if_neg (not_not_intro hlen), hlines]

/-- A well-formed `ObjectId` for the demo restaurant. -/
def demoRid : String := "aaaaaaaaaaaaaaaaaaaaaaa0"

/-- A well-formed `ObjectId` for the first demo item. -/
def demoId1 : String := "aaaaaaaaaaaaaaaaaaaaaaa1"

/-- A well-formed `ObjectId` for the second demo item. -/
def demoId2 : String := "aaaaaaaaaaaaaaaaaaaaaaa2"

/-- Demo item priced 12.99. -/
def demoBurger : ItemDoc := ⟨some "Burger", some "Tasty", PyVal.num (1299 / 100)⟩

/-- Demo item priced 5.00. -/
def demoFries : ItemDoc := ⟨some "Fries", some "Crispy", PyVal.num 5⟩

/-- Demo restaurant document with fee text "$2.99 delivery". -/
def demoRestaurant : RestaurantDoc := ⟨some "Demo Diner", PyVal.str "$2.99 delivery"⟩

/-- Demo database holding the demo restaurant and its two items. -/
def demoDB : DB :=
  ⟨fun s => if s = demoRid then some demoRestaurant else Option.none,
   fun s =>
     if s = demoId1 then some demoBurger
     else if s = demoId2 then some demoFries
     else Option.none⟩

/-- The cart request of the spec example: 12.99 twice and 5.00 once. -/
def demoCartReq : BuildCartRequest := ⟨demoRid, [⟨demoId1, 2⟩, ⟨demoId2, 1⟩]⟩

lemma parse_fee_299 : parse_delivery_fee (PyVal.str "$2.99 delivery") = 299 / 100 := by
  rw [show parse_delivery_fee (.str "$2.99 delivery")
      = numOfParts ['2'] ['9', '9'] from rfl]
  norm_num [numOfParts, show natOfDigits ['2'] = 2 from by decide,
    show natOfDigits ['9', '9'] = 99 from by decide]

lemma demo_cart_subtotal :
    cartSubtotal demoDB [⟨demoId1, 2⟩, ⟨demoId2, 1⟩] = 3098 / 100 := by
  have e1 : demoDB.items demoId1 = some demoBurger := rfl
  have e2 : demoDB.items demoId2 = some demoFries := rfl
  simp only [cartSubtotal, linePrice, List.map_cons, List.map_nil, List.sum_cons,
    List.sum_nil, e1, e2, Option.elim_some]
  rw [demoBurger, demoFries]
  simp only [parse_price]
  norm_num

/-- C1 witness: the concrete cart of the spec example. -/
theorem build_cart_spec_witness :
    build_cart demoDB demoCartReq
      = .ok ⟨demoRid, some "Demo Diner",
          [⟨demoId1, some "Burger", some "Tasty", 1299 / 100, 2, 2598 / 100⟩,
           ⟨demoId2, some "Fries", some "Crispy", 5, 1, 5⟩],
          3098 / 100, some (299 / 100), 3397 / 100⟩ := by
  rw [build_cart_spec demoDB demoCartReq demoRestaurant rfl (by decide) (by decide) (by decide)]
  have e1 : demoDB.items demoId1 = some demoBurger := rfl
  have e2 : demoDB.items demoId2 = some demoFries := rfl
  simp only [demoCartReq, demoRestaurant, demo_cart_subtotal, parse_fee_299,
    List.map_cons, List.map_nil, lineDetail, e1, e2, Option.getD_some]
  rw [demoBurger, demoFries]
  simp only [parse_price]
  rw [if_neg (by norm_num : ¬((299 : ℚ) / 100 = 0))]
  rw [round2_eq_down (3098 / 100) 3098 (by norm_num) (by norm_num),
    round2_eq_down (299 / 100) 299 (by norm_num) (by norm_num),
    round2_eq_down (3098 / 100 + 299 / 100) 3397 (by norm_num) (by norm_num)]
  norm_num

/-- C4: on a resolvable cost-estimate request, the endpoint computes
`tax = subtotal * 0.085` and `total = subtotal + fee + tax` from the
UNROUNDED subtotal (and unrounded tax), then rounds each reported field —
subtotal, fee, tax, total — to 2 decimals independently.  The witness
instantiates this at subtotal 30.98 and fee 2.99: the tax 2.6333 rounds to
2.63 while the total is computed from the unrounded tax and rounded
separately to 36.60. -/
theorem compute_cost_estimate_spec (db : DB) (req : CostEstimateRequest) (r : RestaurantDoc)
    (hr : get_restaurant_by_id db req.restaurant_id = some r)
    (hval : ∀ l ∈ req.items, isValidObjectId l.item_id = true)
    (hpres : ∀ l ∈ req.items, (db.items l.item_id).isSome = true)
    (hnd : (req.items.map (fun l => l.item_id)).Nodup) :
    compute_cost_estimate db req
      = .ok ⟨req.restaurant_id, r.name,
          round2 (cartSubtotal db req.items),
          if parse_delivery_fee r.delivery_fee = 0 then Option.none
          else some (round2 (parse_delivery_fee r.delivery_fee)),
          round2 (cartSubtotal db req.items + parse_delivery_fee r.delivery_fee
            + cartSubtotal db req.items * tax_rate),
          some (round2 (cartSubtotal db req.items * tax_rate))⟩ := by
  have hvi : ∀ i ∈ req.items.map (fun l => l.item_id), isValidObjectId i = true := by
    intro i hi
    obtain ⟨l, hl, rfl⟩ := List.mem_map.mp hi
    exact hval l hl
  have hpi : ∀ i ∈ req.items.map (fun l => l.item_id), (db.items i).isSome = true := by
    intro i hi
    obtain ⟨l, hl, rfl⟩ := List.mem_map.mp hi
    exact hpres l hl
  obtain ⟨hdata, hlen⟩ := get_items_by_ids_resolved db _ hvi hpi hnd
  have hsub :
      estimateSubtotal (get_items_by_ids db (req.items.map (fun l => l.item_id))) req.items
        = .ok (cartSubtotal db req.items) := by
    apply estimateSubtotal_eq
    intro l hl
    obtain ⟨d, hd⟩ := Option.isSome_iff_exists.mp (hpres l hl)
    refine ⟨?_, hpres l hl⟩
    rw [hdata, lookupItem_filterMap db _ _ d hnd (List.mem_map_of_mem _ hl), hd]
    exact hd
  simp only [compute_cost_estimate, hr, if_neg (not_not_intro hlen), hsub]

/-- The cost-estimate request of the spec example (subtotal 30.98). -/
def demoEstReq : CostEstimateRequest := ⟨demoRid, [⟨demoId1, 2⟩, ⟨demoId2, 1⟩]⟩

/-- C4 witness: subtotal 30.98 and fee 2.99 give tax 2.63 and total 36.60. -/
theorem compute_cost_estimate_spec_witness :
    compute_cost_estimate demoDB demoEstReq
      = .ok ⟨demoRid, some "Demo Diner", 3098 / 100, some (299 / 100),
          3660 / 100, some (263 / 100)⟩ := by
  rw [compute_cost_estimate_spec demoDB demoEstReq demoRestaurant rfl
    (by decide) (by decide) (by decide)]
  simp only [demoEstReq, demoRestaurant, demo_cart_subtotal, parse_fee_299, tax_rate]
  rw [if_neg (by norm_num : ¬((299 : ℚ) / 100 = 0))]
  rw [round2_eq_down ((3098 : ℚ) / 100) 3098 (by norm_num) (by norm_num),
    round2_eq_down ((299 : ℚ) / 100) 299 (by norm_num) (by norm_num),
    round2_eq_down ((3098 : ℚ) / 100 + 299 / 100 + 3098 / 100 * (85 / 1000)) 3660
      (by norm_num) (by norm_num),
    round2_eq_down ((3098 : ℚ) / 100 * (85 / 1000)) 263 (by norm_num) (by norm_num)]
  norm_num

lemma length_filterMap_lt {α β : Type} (f : α → Option β) (l : List α) (i : α)
    (hi : i ∈ l) (hf : f i = Option.none) : (l.filterMap f).length < l.length := by
  induction l with
  | nil => cases hi
  | cons a t ih =>
    rcases List.mem_cons.mp hi with rfl | h
    · rw [List.filterMap_cons_none hf]
      exact Nat.lt_succ_of_le (List.length_filterMap_le f t)
    · cases ha : f a with
      | none =>
        rw [List.filterMap_cons_none ha]
        exact Nat.lt_succ_of_lt (ih h)
      | some b =>
        rw [List.filterMap_cons_some (b := b) ha]
        exact Nat.succ_lt_succ (ih h)

/-- If some requested id is malformed or absent then the batch lookup
resolves strictly fewer documents than requested. -/
lemma get_items_by_ids_short (db : DB) (ids : List String) (i : String)
    (hi : i ∈ ids)
    (hbad : ¬(isValidObjectId i = true ∧ (db.items i).isSome = true)) :
    (get_items_by_ids db ids).length < ids.length := by
  by_cases hv : ids.all isValidObjectId = true
  · have hvi : isValidObjectId i = true := List.all_eq_true.mp hv i hi
    have hnone : db.items i = Option.none := by
      cases hd : db.items i with
      | none => rfl
      | some d => exact absurd ⟨hvi, by rw [hd]; rfl⟩ hbad
    rw [get_items_by_ids, if_pos hv]
    calc (ids.dedup.filterMap (fun j => (db.items j).map (fun e => (j, e)))).length
        < ids.dedup.length :=
          length_filterMap_lt _ _ i (List.mem_dedup.mpr hi) (by rw [hnone]; rfl)
      _ ≤ ids.length := (List.dedup_sublist ids).length_le
  · rw [get_items_by_ids, if_neg hv]
    exact List.length_pos.mpr (List.ne_nil_of_mem hi)

lemma buildCartLines_error_status (imap : List (String × ItemDoc))
    (lines : List CartItem) (e : HErr)
    (h : buildCartLines imap lines = .error e) : e.status = 400 := by
  induction lines with
  | nil => simp [buildCartLines] at h
  | cons l t ih =>
    rw [buildCartLines] at h
    cases hl : lookupItem imap l.item_id with
    | none =>
      simp only [hl, Except.error.injEq] at h
      rw [← h]
    | some d =>
      cases ht : buildCartLines imap t with
      | error e2 =>
        simp only [hl, ht, Except.error.injEq] at h
        subst h
        exact ih ht
      | ok p =>
        cases p
        simp [hl, ht] at h

lemma estimateSubtotal_error_status (imap : List (String × ItemDoc))
    (lines : List CartItem) (e : HErr)
    (h : estimateSubtotal imap lines = .error e) : e.status = 400 := by
  induction lines with
  | nil => simp [estimateSubtotal] at h
  | cons l t ih =>
    rw [estimateSubtotal] at h
    cases hl : lookupItem imap l.item_id with
    | none =>
      simp only [hl, Except.error.injEq] at h
      rw [← h]
    | some d =>
      cases ht : estimateSubtotal imap t with
      | error e2 =>
        simp only [hl, ht, Except.error.injEq] at h
        subst h
        exact ih ht
      | ok s =>
        simp [hl, ht] at h

/-- C5: for every cart or cost-estimate request, an absent (or malformed)
restaurant reference fails with 404 NotFound; when the restaurant resolves
but some referenced item id cannot be resolved (malformed ids are converted
by the data-access layer into an absent/empty result instead of raising),
the request fails with the 400 validation error; and every error the two
endpoints can return carries status 404 or 400 — never 500. -/
theorem cart_error_policy :
    (∀ (db : DB) (req : BuildCartRequest),
      (get_restaurant_by_id db req.restaurant_id = Option.none →
        build_cart db req = .error ⟨404, "Restaurant not found"⟩)
      ∧ ((get_restaurant_by_id db req.restaurant_id).isSome = true →
          (∃ l ∈ req.items,
            ¬(isValidObjectId l.item_id = true ∧ (db.items l.item_id).isSome = true)) →
          build_cart db req = .error ⟨400, "One or more items not found or invalid"⟩)
      ∧ (∀ e, build_cart db req = .error e → e.status = 404 ∨ e.status = 400))
    ∧ (∀ (db : DB) (req : CostEstimateRequest),
      (get_restaurant_by_id db req.restaurant_id = Option.none →
        compute_cost_estimate db req = .error ⟨404, "Restaurant not found"⟩)
      ∧ ((get_restaurant_by_id db req.restaurant_id).isSome = true →
          (∃ l ∈ req.items,
            ¬(isValidObjectId l.item_id = true ∧ (db.items l.item_id).isSome = true)) →
          compute_cost_estimate db req
            = .error ⟨400, "One or more items not found or invalid"⟩)
      ∧ (∀ e, compute_cost_estimate db req = .error e → e.status = 404 ∨ e.status = 400)) := by
  constructor
  · intro db req
    refine ⟨fun h => by simp [build_cart, h], ?_, ?_⟩
    · intro hsome hbad
      obtain ⟨r, hr⟩ := Option.isSome_iff_exists.mp hsome
      obtain ⟨l, hl, hb⟩ := hbad
      have hlt := get_items_by_ids_short db (req.items.map (fun x => x.item_id))
        l.item_id (List.mem_map_of_mem _ hl) hb
      simp only [build_cart, hr]
      rw [if_pos (Nat.ne_of_lt hlt)]
    · intro e he
      simp only [build_cart] at he
      cases hr : get_restaurant_by_id db req.restaurant_id with
      | none =>
        simp only [hr, Except.error.injEq] at he
        rw [← he]
        exact Or.inl rfl
      | some r =>
        simp only [hr] at he
        by_cases hc :
            (get_items_by_ids db (req.items.map (fun l => l.item_id))).length
              ≠ (req.items.map (fun l => l.item_id)).length
        · rw [if_pos hc] at he
          simp only [Except.error.injEq] at he
          rw [← he]
          exact Or.inr rfl
        · rw [if_neg hc] at he
          cases hb : buildCartLines (get_items_by_ids db
              (req.items.map (fun l => l.item_id))) req.items with
          | error e2 =>
            simp only [hb, Except.error.injEq] at he
            subst he
            exact Or.inr (buildCartLines_error_status _ _ _ hb)
          | ok p =>
            cases p
            simp [hb] at he
  · intro db req
    refine ⟨fun h => by simp [compute_cost_estimate, h], ?_, ?_⟩
    · intro hsome hbad
      obtain ⟨r, hr⟩ := Option.isSome_iff_exists.mp hsome
      obtain ⟨l, hl, hb⟩ := hbad
      have hlt := get_items_by_ids_short db (req.items.map (fun x => x.item_id))
        l.item_id (List.mem_map_of_mem _ hl) hb
      simp only [compute_cost_estimate, hr]
      rw [if_pos (Nat.ne_of_lt hlt)]
    · intro e he
      simp only [compute_cost_estimate] at he
      cases hr : get_restaurant_by_id db req.restaurant_id with
      | none =>
        simp only [hr, Except.error.injEq] at he
        rw [← he]
        exact Or.inl rfl
      | some r =>
        simp only [hr] at he
        by_cases hc :
            (get_items_by_ids db (req.items.map (fun l => l.item_id))).length
              ≠ (req.items.map (fun l => l.item_id)).length
        · rw [if_pos hc] at he
          simp only [Except.error.injEq] at he
          rw [← he]
          exact Or.inr rfl
        · rw [if_neg hc] at he
          cases hb : estimateSubtotal (get_items_by_ids db
              (req.items.map (fun l => l.item_id))) req.items with
          | error e2 =>
            simp only [hb, Except.error.injEq] at he
            subst he
            exact Or.inr (estimateSubtotal_error_status _ _ _ hb)
          | ok s =>
            simp [hb] at he

/-- A syntactically malformed identifier (`ObjectId` would raise). -/
def demoBadId : String := "not-a-valid-object-id"

/-- A well-formed `ObjectId` that is absent from the demo database. -/
def demoMissingId : String := "aaaaaaaaaaaaaaaaaaaaaaa3"

/-- C5 witness: a malformed restaurant id yields 404; a cart naming an
absent item yields the 400 validation error; an estimate naming a
malformed item id also yields the 400 validation error. -/
theorem cart_error_policy_witness :
    build_cart demoDB ⟨demoBadId, [⟨demoId1, 1⟩]⟩
      = .error ⟨404, "Restaurant not found"⟩
    ∧ build_cart demoDB ⟨demoRid, [⟨demoMissingId, 1⟩]⟩
      = .error ⟨400, "One or more items not found or invalid"⟩
    ∧ compute_cost_estimate demoDB ⟨demoRid, [⟨demoBadId, 1⟩]⟩
      = .error ⟨400, "One or more items not found or invalid"⟩ := by
  refine ⟨?_, ?_, ?_⟩
  · exact (cart_error_policy.1 demoDB _).1 rfl
  · exact (cart_error_policy.1 demoDB _).2.1 rfl (by decide)
  · exact (cart_error_policy.2 demoDB _).2.1 rfl (by decide)

lemma dedup_length_lt {l : List String} (h : ¬ l.Nodup) : l.dedup.length < l.length := by
  have hsub := List.dedup_sublist l
  rcases Nat.lt_or_ge l.dedup.length l.length with hlt | hge
  · exact hlt
  · exfalso
    have heq : l.dedup.length = l.length := le_antisymm hsub.length_le hge
    exact h (hsub.eq_of_length heq ▸ l.nodup_dedup)

/-- C10: a cart or cost-estimate request that names the same existing item
id on more than one line is rejected: the `$in` batch lookup deduplicates
the ids, so the resolved count is strictly below the requested count and
the bulk-mismatch 400 validation error fires even though every referenced
item exists.  A quantity above 1 can therefore only be expressed through
the `quantity` field, never by repeating a line. -/
theorem duplicate_line_rejection :
    (∀ (db : DB) (req : BuildCartRequest) (r : RestaurantDoc),
      get_restaurant_by_id db req.restaurant_id = some r →
      (∀ l ∈ req.items,
        isValidObjectId l.item_id = true ∧ (db.items l.item_id).isSome = true) →
      ¬ (req.items.map (fun l => l.item_id)).Nodup →
      (get_items_by_ids db (req.items.map (fun l => l.item_id))).length
          < (req.items.map (fun l => l.item_id)).length
      ∧ build_cart db req = .error ⟨400, "One or more items not found or invalid"⟩)
    ∧ (∀ (db : DB) (req : CostEstimateRequest) (r : RestaurantDoc),
      get_restaurant_by_id db req.restaurant_id = some r →
      (∀ l ∈ req.items,
        isValidObjectId l.item_id = true ∧ (db.items l.item_id).isSome = true) →
      ¬ (req.items.map (fun l => l.item_id)).Nodup →
      (get_items_by_ids db (req.items.map (fun l => l.item_id))).length
          < (req.items.map (fun l => l.item_id)).length
      ∧ compute_cost_estimate db req
          = .error ⟨400, "One or more items not found or invalid"⟩) := by
  have key : ∀ (db : DB) (lines : List CartItem),
      (∀ l ∈ lines,
        isValidObjectId l.item_id = true ∧ (db.items l.item_id).isSome = true) →
      ¬ (lines.map (fun l => l.item_id)).Nodup →
      (get_items_by_ids db (lines.map (fun l => l.item_id))).length
        < (lines.map (fun l => l.item_id)).length := by
    intro db lines hall hnd
    have hv : (lines.map (fun l => l.item_id)).all isValidObjectId = true := by
      refine List.all_eq_true.mpr ?_
      intro i hi
      obtain ⟨l, hl, rfl⟩ := List.mem_map.mp hi
      exact (hall l hl).1
    have hp : ∀ i ∈ (lines.map (fun l => l.item_id)).dedup, (db.items i).isSome = true := by
      intro i hi
      obtain ⟨l, hl, rfl⟩ := List.mem_map.mp (List.mem_dedup.mp hi)
      exact (hall l hl).2
    rw [get_items_by_ids, if_pos hv, length_filterMap_pair db _ hp]
    exact dedup_length_lt hnd
  constructor
  · intro db req r hr hall hnd
    have hlt := key db req.items hall hnd
    refine ⟨hlt, ?_⟩
    simp only [build_cart, hr]
    rw [if_pos (Nat.ne_of_lt hlt)]
  · intro db req r hr hall hnd
    have hlt := key db req.items hall hnd
    refine ⟨hlt, ?_⟩
    simp only [compute_cost_estimate, hr]
    rw [if_pos (Nat.ne_of_lt hlt)]

/-- C10 witness: listing the existing item `demoId1` twice resolves only
one document and draws the bulk 400 error on both endpoints. -/
theorem duplicate_line_rejection_witness :
    ((get_items_by_ids demoDB [demoId1, demoId1]).length < 2
      ∧ build_cart demoDB ⟨demoRid, [⟨demoId1, 1⟩, ⟨demoId1, 1⟩]⟩
          = .error ⟨400, "One or more items not found or invalid"⟩)
    ∧ ((get_items_by_ids demoDB [demoId1, demoId1]).length < 2
      ∧ compute_cost_estimate demoDB ⟨demoRid, [⟨demoId1, 1⟩, ⟨demoId1, 1⟩]⟩
          = .error ⟨400, "One or more items not found or invalid"⟩) := by
  constructor
  · exact duplicate_line_rejection.1 demoDB ⟨demoRid, [⟨demoId1, 1⟩, ⟨demoId1, 1⟩]⟩
      demoRestaurant rfl (by decide) (by decide)
  · exact duplicate_line_rejection.2 demoDB ⟨demoRid, [⟨demoId1, 1⟩, ⟨demoId1, 1⟩]⟩
      demoRestaurant rfl (by decide) (by decide)

/-- C2: the calculation-facing and model-facing price parsers agree on
every parseable input — a numeric value, or a string containing a
decimal-number token, yields that number — and differ only in fallback:
on an unparseable input the calculation-facing `parse_price` returns 0
while the model-facing validator returns the input unchanged.  The witness
instantiates this at "$$16.99" (both give 16.99) and "free" (0 versus the
original string). -/
theorem price_parsing_policies :
    (∀ (v : PyVal) (q : ℚ), parseableAs v = some q →
      parse_price v = q ∧ MenuItemResponse.parse_price v = .num q)
    ∧ (∀ v : PyVal, parseableAs v = Option.none →
      parse_price v = 0 ∧ MenuItemResponse.parse_price v = v) := by
  constructor
  · intro v q h
    cases v with
    | none => simp [parseableAs] at h
    | num p =>
      simp only [parseableAs, Option.some.injEq] at h
      subst h
      exact ⟨rfl, rfl⟩
    | str s =>
      simp only [parseableAs] at h
      exact ⟨by simp [parse_price, h], by simp [MenuItemResponse.parse_price, h]⟩
  · intro v h
    cases v with
    | none => exact ⟨rfl, rfl⟩
    | num p => simp [parseableAs] at h
    | str s =>
      simp only [parseableAs] at h
      exact ⟨by simp [parse_price, h], by simp [MenuItemResponse.parse_price, h]⟩

/-- C2 witness: the two parsers at "$$16.99" and at "free". -/
theorem price_parsing_policies_witness :
    parse_price (.str "$$16.99") = 1699 / 100
    ∧ MenuItemResponse.parse_price (.str "$$16.99") = .num (1699 / 100)
    ∧ parse_price (.str "free") = 0
    ∧ MenuItemResponse.parse_price (.str "free") = .str "free" := by
  have hp : parseableAs (.str "$$16.99") = some (1699 / 100) := by
    rw [show parseableAs (.str "$$16.99")
        = some (numOfParts ['1', '6'] ['9', '9']) from rfl]
    norm_num [numOfParts, show natOfDigits ['1', '6'] = 16 from by decide,
      show natOfDigits ['9', '9'] = 99 from by decide]
  have hf : parseableAs (.str "free") = Option.none := rfl
  obtain ⟨h1, h2⟩ := price_parsing_policies.1 (.str "$$16.99") (1699 / 100) hp
  obtain ⟨h3, h4⟩ := price_parsing_policies.2 (.str "free") hf
  exact ⟨h1, h2, h3, h4⟩

/-- C3: price/fee normalization is idempotent on numeric input — every
numeric value passes through unchanged, in the calculation-facing parsers
and in the model-facing validators — and renormalizing any already
normalized value is a no-op.  All four normalizers are total Lean
functions over the whole `PyVal` input domain (null, numeric or string),
mirroring that the Python originals have no raising path. -/
theorem normalization_idempotent :
    (∀ q : ℚ, parse_delivery_fee (.num q) = q ∧ parse_price (.num q) = q
      ∧ RestaurantResponse.parse_delivery_fee (.num q) = .num q
      ∧ MenuItemResponse.parse_price (.num q) = .num q)
    ∧ (∀ v : PyVal,
        parse_delivery_fee (.num (parse_delivery_fee v)) = parse_delivery_fee v
        ∧ parse_price (.num (parse_price v)) = parse_price v) :=
  ⟨fun _ => ⟨rfl, rfl, rfl, rfl⟩, fun _ => ⟨rfl, rfl⟩⟩

/-- C9: rating-count normalization first strips surrounding parentheses;
when the stripped text contains a `k+` marker (case-insensitively) and a
leading decimal number, it multiplies that number by 1000 and truncates to
an integer; otherwise it extracts the first run of digits as an integer;
and integer input passes through unchanged.  The witness instantiates this
at "(3k+)" (3000), "100" (100) and the integer 7. -/
theorem ratings_normalization_spec :
    (∀ q : ℚ, RestaurantResponse.parse_number_of_ratings (.num q) = .num q)
    ∧ (∀ (s : String) (q : ℚ),
        RestaurantResponse.containsKPlus
          ((RestaurantResponse.stripParens s.data).map Char.toLower) = true →
        scanNumber (RestaurantResponse.stripParens s.data) = some q →
        RestaurantResponse.parse_number_of_ratings (.str s)
          = .num ((⌊q * 1000⌋ : ℤ) : ℚ))
    ∧ (∀ (s : String) (n : ℕ),
        RestaurantResponse.containsKPlus
          ((RestaurantResponse.stripParens s.data).map Char.toLower) = false →
        scanDigits (RestaurantResponse.stripParens s.data) = some n →
        RestaurantResponse.parse_number_of_ratings (.str s) = .num (n : ℚ)) := by
  refine ⟨fun q => rfl, ?_, ?_⟩
  · intro s q hk hn
    simp [RestaurantResponse.parse_number_of_ratings, hk, hn]
  · intro s n hk hn
    simp [RestaurantResponse.parse_number_of_ratings, hk, hn]

/-- C9 witness: "(3k+)" normalizes to 3000, "100" to 100, and the integer
7 passes through. -/
theorem ratings_normalization_spec_witness :
    RestaurantResponse.parse_number_of_ratings (.str "(3k+)") = .num 3000
    ∧ RestaurantResponse.parse_number_of_ratings (.str "100") = .num 100
    ∧ RestaurantResponse.parse_number_of_ratings (.num 7) = .num 7 := by
  refine ⟨?_, ?_, ratings_normalization_spec.1 7⟩
  · have h := ratings_normalization_spec.2.1 "(3k+)" (numOfParts ['3'] []) rfl rfl
    have h3 : numOfParts ['3'] [] = 3 := by
      norm_num [numOfParts, show natOfDigits ['3'] = 3 from by decide,
        show natOfDigits ([] : List Char) = 0 from rfl]
    rw [h, h3, show ((3 : ℚ) * 1000) = ((3000 : ℤ) : ℚ) by norm_num, Int.floor_intCast]
    norm_num
  · have h := ratings_normalization_spec.2.2 "100" (natOfDigits ['1', '0', '0']) rfl rfl
    rw [h, show natOfDigits ['1', '0', '0'] = 100 from by decide]
    norm_num

/-!
Delivery client (`routers/doordash.py`)

The upstream courier API is modelled as a function from the external
delivery id to an HTTP response (status, body text, and the decoded
delivery payload used on success).  The three signing secrets are modelled
as an optional credentials record: `get_jwt_token` raises a 500 when any of
them is missing, and the token itself is opaque to the tracking logic.
-/

/-- The three DoorDash credentials read from the environment. -/
structure DoorDashCreds where
  developer_id : String
  key_id : String
  signing_secret : String
deriving DecidableEq, Repr

/-- A decoded delivery payload (opaque to the tracking logic). -/
structure DeliveryData where
  raw : String
deriving DecidableEq, Repr

/-- An upstream HTTP response: status code, body text, decoded payload. -/
structure UpstreamResponse where
  status : ℕ
  body : String
  payload : DeliveryData
deriving DecidableEq, Repr

/-- A single apostrophe character, as used by the f-string in the 404
detail. -/
def squote : String := String.singleton (Char.ofNat 39)

/-- The 404 detail produced by the track endpoint, naming the external
delivery id. -/
def trackNotFoundDetail (external_delivery_id : String) : String :=
  "Delivery with external_delivery_id " ++ squote ++ external_delivery_id
    ++ squote ++ " not found"

/-- Embeds `routers/doordash.py: doordash_track_delivery_status` (GET
`/deliveries/{external_delivery_id}`): missing credentials give a config
500; an upstream 200 is returned as the delivery payload; an upstream 404
is surfaced as a 404 NotFound naming the external id; any other upstream
status is surfaced as an error carrying the upstream status code and
body. -/
def doordash_track_delivery_status (creds : Option DoorDashCreds)
    (upstream : String → UpstreamResponse) (external_delivery_id : String) :
    Except HErr DeliveryData :=
  match creds with
  | Option.none =>
    .error ⟨500, "Missing required DoorDash credentials. Please check your .env file."⟩
  | some _ =>
    let r := upstream external_delivery_id
    if r.status = 200 then .ok r.payload
    else if r.status = 404 then
      .error ⟨404, trackNotFoundDetail external_delivery_id⟩
    else .error ⟨r.status, "DoorDash API error: " ++ r.body⟩

/-- C8: with credentials configured, a delivery-tracking request surfaces
an upstream 404 as a 404 NotFound whose detail names the external
delivery id, distinctly from any other upstream non-200 status — which is
surfaced as an error carrying the upstream status code and body — while
an upstream 200 is returned as the delivery payload. -/
theorem track_delivery_status_policy (c : DoorDashCreds)
    (upstream : String → UpstreamResponse) (i : String) :
    ((upstream i).status = 200 →
      doordash_track_delivery_status (some c) upstream i = .ok (upstream i).payload)
    ∧ ((upstream i).status = 404 →
      doordash_track_delivery_status (some c) upstream i
        = .error ⟨404, trackNotFoundDetail i⟩)
    ∧ ((upstream i).status ≠ 200 → (upstream i).status ≠ 404 →
      doordash_track_delivery_status (some c) upstream i
        = .error ⟨(upstream i).status, "DoorDash API error: " ++ (upstream i).body⟩) := by
  refine ⟨?_, ?_, ?_⟩
  · intro h
    simp [doordash_track_delivery_status, h]
  · intro h
    simp [doordash_track_delivery_status, h]
  · intro h200 h404
    simp [doordash_track_delivery_status, h200, h404]

/-- C8 witness: a concrete upstream that answers 404 for id "D-404",
200 for id "D-200" and 503 otherwise. -/
theorem track_delivery_status_policy_witness :
    doordash_track_delivery_status (some ⟨"dev", "key", "secret"⟩)
      (fun i => if i = "D-200" then ⟨200, "ok-body", ⟨"the-delivery"⟩⟩
        else if i = "D-404" then ⟨404, "nf-body", ⟨"none"⟩⟩
        else ⟨503, "oops", ⟨"none"⟩⟩) "D-404"
      = .error ⟨404, trackNotFoundDetail "D-404"⟩
    ∧ doordash_track_delivery_status (some ⟨"dev", "key", "secret"⟩)
      (fun i => if i = "D-200" then ⟨200, "ok-body", ⟨"the-delivery"⟩⟩
        else if i = "D-404" then ⟨404, "nf-body", ⟨"none"⟩⟩
        else ⟨503, "oops", ⟨"none"⟩⟩) "D-200"
      = .ok ⟨"the-delivery"⟩
    ∧ doordash_track_delivery_status (some ⟨"dev", "key", "secret"⟩)
      (fun i => if i = "D-200" then ⟨200, "ok-body", ⟨"the-delivery"⟩⟩
        else if i = "D-404" then ⟨404, "nf-body", ⟨"none"⟩⟩
        else ⟨503, "oops", ⟨"none"⟩⟩) "D-X"
      = .error ⟨503, "DoorDash API error: " ++ "oops"⟩ := by
  refine ⟨?_, ?_, ?_⟩
  · exact (track_delivery_status_policy ⟨"dev", "key", "secret"⟩ _ "D-404").2.1 rfl
  · exact (track_delivery_status_policy ⟨"dev", "key", "secret"⟩ _ "D-200").1 rfl
  · exact (track_delivery_status_policy ⟨"dev", "key", "secret"⟩ _ "D-X").2.2
      (by decide) (by decide)

/-!
Conversational agent loop (`routers/agent.py`)

The hosted model is an oracle mapping the current message list to a reply
(optional text content plus a list of requested tool calls); tool
execution (`execute_function_call`, JSON serialization and the result
truncation) is abstracted as a function from a tool call to the content
string of the resulting tool-role message.  The per-thread conversation
store is a total map from thread id to message list (absent threads map to
the empty history, as `get_or_create_thread` creates them on demand).
-/

/-- One tool call requested by the model. -/
structure ToolCall where
  id : String
  name : String
  arguments : String
deriving DecidableEq, Repr

/-- A conversation message: system, user, assistant (optional content and
tool calls), or tool result (tool-call id and content). -/
inductive Msg where
  | system : String → Msg
  | user : String → Msg
  | assistant : Option String → List ToolCall → Msg
  | tool : String → String → Msg
deriving DecidableEq, Repr

/-- One model reply. -/
structure ModelReply where
  content : Option String
  tool_calls : List ToolCall
deriving DecidableEq, Repr

/-- Whether a message has the system role. -/
def isSystemMsg : Msg → Bool
  | .system _ => true
  | _ => false

/-- Embeds `agent.py: trim_conversation_history` — keep system messages aside and
the most recent `max_messages` non-system messages; a list already within
`max_messages` (system messages included in the count, as in the source)
is returned unchanged.  The inner `max_messages = 0` test reproduces the
Python slice `[-0:]`, which returns the whole list rather than the empty
one; it is dead at the only call sites (`max_messages = 20`). -/
def trim_conversation_history (messages : List Msg) (max_messages : ℕ) : List Msg :=
  if messages.length ≤ max_messages then messages
  else
    messages.filter isSystemMsg ++
      (if max_messages < (messages.filter (fun m => !(isSystemMsg m))).length then
        (if max_messages = 0 then messages.filter (fun m => !(isSystemMsg m))
         else (messages.filter (fun m => !(isSystemMsg m))).drop
            ((messages.filter (fun m => !(isSystemMsg m))).length - max_messages))
       else messages.filter (fun m => !(isSystemMsg m)))

/-- The generic failure message returned when no assistant text exists. -/
def FAILURE_MESSAGE : String :=
  "I apologize, but I encountered an issue processing your request."

/-- The system prompt sent on a thread's first turn (single quotes spelled
via `squote`). -/
def SYSTEM_PROMPT : String :=
  "You are a helpful assistant for the DaNomNoms food delivery service. "
    ++ "You can help users browse restaurants, view menus, build carts, "
    ++ "create orders, and manage deliveries. Use the available functions "
    ++ "to interact with the API when needed. CRITICAL: When function "
    ++ "calls return errors (check for " ++ squote ++ "success: false"
    ++ squote ++ " or " ++ squote ++ "error" ++ squote
    ++ " fields), you MUST show the user the exact error message from the "
    ++ "function result. Do NOT say " ++ squote ++ "temporary issue"
    ++ squote ++ " or " ++ squote ++ "unable to retrieve" ++ squote
    ++ " - instead, quote the actual error message so the user knows what "
    ++ "went wrong. If the error mentions timeout or cold start, explain "
    ++ "that the server may be waking up."

/-- The `while iteration < max_iterations` loop of `agent_chat`, with the
remaining iteration budget as fuel: query the model; append its reply as
an assistant message; stop with the reply text if it requested no tool
calls; otherwise execute each tool call in the order returned, append one
tool-role message per call, and loop.  Returns the final message list and
the `final_response` string (empty when the budget was exhausted or the
terminating reply had no text). -/
def runAgentLoop (oracle : List Msg → ModelReply) (ex : ToolCall → String) :
    ℕ → List Msg → List Msg × String
  | 0, msgs => (msgs, "")
  | fuel + 1, msgs =>
    if (oracle msgs).tool_calls.isEmpty then
      (msgs ++ [Msg.assistant (oracle msgs).content (oracle msgs).tool_calls],
       (oracle msgs).content.getD "")
    else
      runAgentLoop oracle ex fuel
        (msgs ++ [Msg.assistant (oracle msgs).content (oracle msgs).tool_calls]
          ++ (oracle msgs).tool_calls.map (fun tc => Msg.tool tc.id (ex tc)))

/-- First assistant message with truthy (non-`None`, non-empty) content. -/
def firstAssistantText : List Msg → Option String
  | [] => Option.none
  | Msg.assistant (some c) _ :: rest =>
    if c = "" then firstAssistantText rest else some c
  | _ :: rest => firstAssistantText rest

/-- The `for msg in reversed(messages)` fallback scan of `agent_chat`. -/
def lastAssistantText (msgs : List Msg) : Option String :=
  firstAssistantText msgs.reverse

/-- The message list `agent_chat` seeds the loop with: the stored history
trimmed to 20, the new user message, and — only when that makes a
one-message history, i.e. on a thread's very first turn — the system
prompt in front. -/
def initMessages (threads : String → List Msg) (thread_id prompt : String) : List Msg :=
  (if (trim_conversation_history (threads thread_id) 20 ++ [Msg.user prompt]).length = 1
   then [Msg.system SYSTEM_PROMPT] else [])
    ++ (trim_conversation_history (threads thread_id) 20 ++ [Msg.user prompt])

/-- Embeds `agent.py: agent_chat` (POST `/chat`) for a resolved thread id: run the
loop with a 10-iteration ceiling; if it produced no final text, fall back
to the most recent non-empty assistant text, else to the generic failure
message; store back the non-system messages trimmed to 20.  Returns the
response text and the updated thread store. -/
def agent_chat (oracle : List Msg → ModelReply) (ex : ToolCall → String)
    (threads : String → List Msg) (thread_id prompt : String) :
    String × (String → List Msg) :=
  let result := runAgentLoop oracle ex 10 (initMessages threads thread_id prompt)
  let final1 := if result.2 = "" then (lastAssistantText result.1).getD "" else result.2
  let stored :=
    trim_conversation_history (result.1.filter (fun m => !(isSystemMsg m))) 20
  (if final1 = "" then FAILURE_MESSAGE else final1,
   fun t => if t = thread_id then stored else threads t)

/-- A sequence of turns (thread id, prompt) applied to an initially empty
thread store. -/
def runTurns (oracle : List Msg → ModelReply) (ex : ToolCall → String)
    (turns : List (String × String)) : String → List Msg :=
  turns.foldl (fun threads turn => (agent_chat oracle ex threads turn.1 turn.2).2)
    (fun _ => [])

/-- Number of non-system messages. -/
def countNonSystem (msgs : List Msg) : ℕ :=
  (msgs.filter (fun m => !(isSystemMsg m))).length

/-- Number of assistant messages — one per model call made by the loop. -/
def assistantCalls (msgs : List Msg) : ℕ :=
  (msgs.filter (fun m =>
    match m with
    | Msg.assistant _ _ => true
    | _ => false)).length

lemma filter_nonsystem_of_system (msgs : List Msg) :
    (msgs.filter isSystemMsg).filter (fun m => !(isSystemMsg m)) = [] := by
  rw [List.filter_filter]
  refine List.filter_eq_nil_iff.mpr ?_
  intro a _
  cases h : isSystemMsg a <;> simp [h]

lemma filter_system_of_nonsystem (msgs : List Msg) :
    (msgs.filter (fun m => !(isSystemMsg m))).filter isSystemMsg = [] := by
  rw [List.filter_filter]
  refine List.filter_eq_nil_iff.mpr ?_
  intro a _
  cases h : isSystemMsg a <;> simp [h]

/-- The trim keeps at most 20 non-system messages, whatever the input. -/
lemma trim_countNonSystem_le (msgs : List Msg) :
    countNonSystem (trim_conversation_history msgs 20) ≤ 20 := by
  unfold trim_conversation_history countNonSystem
  by_cases h : msgs.length ≤ 20
  · rw [if_pos h]
    exact le_trans (List.length_filter_le _ _) h
  · rw [if_neg h, List.filter_append, filter_nonsystem_of_system, List.nil_append]
    have hmem : ∀ m ∈ msgs.filter (fun m => !(isSystemMsg m)), (!(isSystemMsg m)) = true :=
      fun m hm => (List.mem_filter.mp hm).2
    by_cases h2 : 20 < (msgs.filter (fun m => !(isSystemMsg m))).length
    · rw [if_pos h2, if_neg (by decide : ¬(20 = 0))]
      rw [List.filter_eq_self.mpr (fun a ha => hmem a (List.mem_of_mem_drop ha)),
        List.length_drop]
      omega
    · rw [if_neg h2, List.filter_eq_self.mpr hmem]
      omega

/-- The trim preserves the system messages unchanged. -/
lemma trim_system_messages (msgs : List Msg) :
    (trim_conversation_history msgs 20).filter isSystemMsg
      = msgs.filter isSystemMsg := by
  unfold trim_conversation_history
  by_cases h : msgs.length ≤ 20
  · rw [if_pos h]
  · rw [if_neg h, List.filter_append]
    have hsys : (msgs.filter isSystemMsg).filter isSystemMsg = msgs.filter isSystemMsg := by
      rw [List.filter_filter]
      exact List.filter_congr (fun a _ => by cases h : isSystemMsg a <;> simp [h])
    rw [hsys]
    by_cases h2 : 20 < (msgs.filter (fun m => !(isSystemMsg m))).length
    · rw [if_pos h2, if_neg (by decide : ¬(20 = 0))]
      rw [show ((msgs.filter (fun m => !(isSystemMsg m))).drop
          ((msgs.filter (fun m => !(isSystemMsg m))).length - 20)).filter isSystemMsg
          = [] from List.filter_eq_nil_iff.mpr (fun a ha => by
            have := (List.mem_filter.mp (List.mem_of_mem_drop ha)).2
            simp only [Bool.not_eq_true'] at this
            simp [this]),
        List.append_nil]
    · rw [if_neg h2, filter_system_of_nonsystem, List.append_nil]

/-- What the trim keeps of the non-system messages is a suffix of them:
the most recent ones. -/
lemma trim_nonsystem_suffix (msgs : List Msg) :
    (trim_conversation_history msgs 20).filter (fun m => !(isSystemMsg m))
      <:+ msgs.filter (fun m => !(isSystemMsg m)) := by
  unfold trim_conversation_history
  by_cases h : msgs.length ≤ 20
  · rw [if_pos h]
  · rw [if_neg h, List.filter_append, filter_nonsystem_of_system, List.nil_append]
    have hmem : ∀ m ∈ msgs.filter (fun m => !(isSystemMsg m)), (!(isSystemMsg m)) = true :=
      fun m hm => (List.mem_filter.mp hm).2
    by_cases h2 : 20 < (msgs.filter (fun m => !(isSystemMsg m))).length
    · rw [if_pos h2, if_neg (by decide : ¬(20 = 0))]
      rw [List.filter_eq_self.mpr (fun a ha => hmem a (List.mem_of_mem_drop ha))]
      exact List.drop_suffix _ _
    · rw [if_neg h2, List.filter_eq_self.mpr hmem]

/-- C7: across every sequence of turns from an empty store, every thread
holds at most 20 non-system messages once a turn completes; a single turn
leaves every other thread untouched and stores at most 20 non-system
messages for its own thread; and the trim itself keeps system messages
aside unchanged while retaining a suffix — the most recent window — of at
most 20 non-system messages. -/
theorem thread_history_bounded :
    (∀ (oracle : List Msg → ModelReply) (ex : ToolCall → String)
        (turns : List (String × String)) (tid : String),
      countNonSystem (runTurns oracle ex turns tid) ≤ 20)
    ∧ (∀ (oracle : List Msg → ModelReply) (ex : ToolCall → String)
        (threads : String → List Msg) (tid prompt : String),
      countNonSystem ((agent_chat oracle ex threads tid prompt).2 tid) ≤ 20
      ∧ ∀ t, t ≠ tid → (agent_chat oracle ex threads tid prompt).2 t = threads t)
    ∧ (∀ msgs : List Msg,
      countNonSystem (trim_conversation_history msgs 20) ≤ 20
      ∧ (trim_conversation_history msgs 20).filter isSystemMsg = msgs.filter isSystemMsg
      ∧ (trim_conversation_history msgs 20).filter (fun m => !(isSystemMsg m))
          <:+ msgs.filter (fun m => !(isSystemMsg m))) := by
  have hstep : ∀ (oracle : List Msg → ModelReply) (ex : ToolCall → String)
      (threads : String → List Msg) (tid prompt : String),
      countNonSystem ((agent_chat oracle ex threads tid prompt).2 tid) ≤ 20
      ∧ ∀ t, t ≠ tid → (agent_chat oracle ex threads tid prompt).2 t = threads t := by
    intro oracle ex threads tid prompt
    constructor
    · show countNonSystem (if tid = tid then _ else _) ≤ 20
      rw [if_pos rfl]
      exact trim_countNonSystem_le _
    · intro t ht
      show (if t = tid then _ else threads t) = threads t
      rw [if_neg ht]
  refine ⟨?_, hstep, fun msgs =>
    ⟨trim_countNonSystem_le msgs, trim_system_messages msgs, trim_nonsystem_suffix msgs⟩⟩
  intro oracle ex turns tid
  suffices hgen : ∀ (turns : List (String × String)) (threads : String → List Msg),
      (∀ t, countNonSystem (threads t) ≤ 20) →
      ∀ t, countNonSystem
        (turns.foldl (fun th turn => (agent_chat oracle ex th turn.1 turn.2).2) threads t)
        ≤ 20 by
    exact hgen turns (fun _ => []) (fun _ => Nat.zero_le _) tid
  intro turns
  induction turns with
  | nil => intro threads hth t; exact hth t
  | cons turn rest ih =>
    intro threads hth t
    refine ih _ ?_ t
    intro u
    show countNonSystem ((agent_chat oracle ex threads turn.1 turn.2).2 u) ≤ 20
    by_cases hu : u = turn.1
    · subst hu
      exact (hstep oracle ex threads turn.1 turn.2).1
    · rw [(hstep oracle ex threads turn.1 turn.2).2 u hu]
      exact hth u

lemma firstAssistantText_ne_empty (l : List Msg) (t : String)
    (h : firstAssistantText l = some t) : t ≠ "" := by
  induction l with
  | nil => simp [firstAssistantText] at h
  | cons m rest ih =>
    cases m with
    | system s =>
      exact ih (by rw [show firstAssistantText (Msg.system s :: rest)
        = firstAssistantText rest from rfl] at h; exact h)
    | user s =>
      exact ih (by rw [show firstAssistantText (Msg.user s :: rest)
        = firstAssistantText rest from rfl] at h; exact h)
    | tool a b =>
      exact ih (by rw [show firstAssistantText (Msg.tool a b :: rest)
        = firstAssistantText rest from rfl] at h; exact h)
    | assistant oc tcs =>
      cases oc with
      | none =>
        exact ih (by rw [show firstAssistantText (Msg.assistant Option.none tcs :: rest)
          = firstAssistantText rest from rfl] at h; exact h)
      | some c =>
        rw [show firstAssistantText (Msg.assistant (some c) tcs :: rest)
          = if c = "" then firstAssistantText rest else some c from rfl] at h
        by_cases hc : c = ""
        · rw [if_pos hc] at h
          exact ih h
        · rw [if_neg hc] at h
          obtain rfl := Option.some.injEq _ _ ▸ h
          exact hc

lemma assistantCalls_append (a b : List Msg) :
    assistantCalls (a ++ b) = assistantCalls a + assistantCalls b := by
  simp [assistantCalls, List.filter_append]

lemma assistantCalls_tools (ex : ToolCall → String) (tcs : List ToolCall) :
    assistantCalls (tcs.map (fun tc => Msg.tool tc.id (ex tc))) = 0 := by
  unfold assistantCalls
  rw [List.filter_eq_nil_iff.mpr]
  · rfl
  · intro a ha
    obtain ⟨tc, _, rfl⟩ := List.mem_map.mp ha
    simp

/-- C6 (amended): the loop terminates within its 10-round budget — each
round adds exactly one assistant message, so the budget bounds the number
of model calls; a reply with zero tool calls ends the loop in that round
and the loop reports its text (empty when the content was null or empty);
a reply with k tool calls appends exactly k tool-role messages, one per
call in the order returned, and re-queries the model; when the loop
reports a non-empty final text it is the response, and otherwise —
whether the ceiling was exhausted or the terminating reply had no
non-empty text — the most recent non-empty assistant text is returned,
else the generic failure message. -/
theorem agent_loop_spec :
    (∀ (oracle : List Msg → ModelReply) (ex : ToolCall → String)
        (fuel : ℕ) (msgs : List Msg),
      (oracle msgs).tool_calls = [] →
      runAgentLoop oracle ex (fuel + 1) msgs
        = (msgs ++ [Msg.assistant (oracle msgs).content []],
           (oracle msgs).content.getD ""))
    ∧ (∀ (oracle : List Msg → ModelReply) (ex : ToolCall → String)
        (fuel : ℕ) (msgs : List Msg),
      (oracle msgs).tool_calls ≠ [] →
      runAgentLoop oracle ex (fuel + 1) msgs
        = runAgentLoop oracle ex fuel
            (msgs ++ [Msg.assistant (oracle msgs).content (oracle msgs).tool_calls]
              ++ (oracle msgs).tool_calls.map (fun tc => Msg.tool tc.id (ex tc)))
      ∧ ((oracle msgs).tool_calls.map (fun tc => Msg.tool tc.id (ex tc))).length
          = (oracle msgs).tool_calls.length)
    ∧ (∀ (oracle : List Msg → ModelReply) (ex : ToolCall → String)
        (fuel : ℕ) (msgs : List Msg),
      assistantCalls (runAgentLoop oracle ex fuel msgs).1 ≤ assistantCalls msgs + fuel)
    ∧ (∀ (oracle : List Msg → ModelReply) (ex : ToolCall → String)
        (threads : String → List Msg) (tid prompt : String),
      ((runAgentLoop oracle ex 10 (initMessages threads tid prompt)).2 ≠ "" →
        (agent_chat oracle ex threads tid prompt).1
          = (runAgentLoop oracle ex 10 (initMessages threads tid prompt)).2)
      ∧ ((runAgentLoop oracle ex 10 (initMessages threads tid prompt)).2 = "" →
        (agent_chat oracle ex threads tid prompt).1
          = (lastAssistantText
              (runAgentLoop oracle ex 10 (initMessages threads tid prompt)).1).getD
              FAILURE_MESSAGE)) := by
  refine ⟨?_, ?_, ?_, ?_⟩
  · intro oracle ex fuel msgs h
    simp [runAgentLoop, h]
  · intro oracle ex fuel msgs h
    cases hc : (oracle msgs).tool_calls with
    | nil => exact absurd hc h
    | cons a t =>
      constructor
      · simp [runAgentLoop, hc]
      · simp
  · intro oracle ex fuel msgs
    induction fuel generalizing msgs with
    | zero => simp [runAgentLoop]
    | succ n ih =>
      by_cases hc : (oracle msgs).tool_calls.isEmpty = true
      · rw [runAgentLoop, if_pos hc]
        rw [assistantCalls_append]
        have h1 : assistantCalls [Msg.assistant (oracle msgs).content
            (oracle msgs).tool_calls] = 1 := rfl
        omega
      · rw [runAgentLoop, if_neg hc]
        refine le_trans (ih _) ?_
        rw [assistantCalls_append, assistantCalls_append, assistantCalls_tools]
        have h1 : assistantCalls [Msg.assistant (oracle msgs).content
            (oracle msgs).tool_calls] = 1 := rfl
        omega
  · intro oracle ex threads tid prompt
    constructor
    · intro h
      show (if (if (runAgentLoop oracle ex 10
            (initMessages threads tid prompt)).2 = "" then _ else _) = ""
          then FAILURE_MESSAGE else _) = _
      rw [if_neg h, if_neg h]
    · intro h
      show (if (if (runAgentLoop oracle ex 10
            (initMessages threads tid prompt)).2 = "" then _ else _) = ""
          then FAILURE_MESSAGE else _) = _
      rw [if_pos h]
      cases hl : lastAssistantText
          (runAgentLoop oracle ex 10 (initMessages threads tid prompt)).1 with
      | none => simp
      | some t =>
        have ht : t ≠ "" := firstAssistantText_ne_empty _ t hl
        simp [ht]

/-- An oracle replying with empty text and no tool calls. -/
def cexOracle : List Msg → ModelReply := fun _ => ⟨some "", []⟩

/-- An oracle replying with non-empty text and no tool calls. -/
def plainOracle : List Msg → ModelReply := fun _ => ⟨some "Hi there.", []⟩

/-- An oracle that always requests one tool call. -/
def toolOracle : List Msg → ModelReply :=
  fun _ => ⟨Option.none, [⟨"call1", "list_restaurants", "{}"⟩]⟩

/-- A trivial tool executor. -/
def plainExec : ToolCall → String := fun _ => "{}"

/-- The empty thread store. -/
def emptyThreads : String → List Msg := fun _ => []

/-- C6 counterexample: the very first model reply carries zero tool calls,
so the loop ends in that round, but its text (the empty string) is not the
final answer — the endpoint returns the generic failure message instead. -/
theorem agent_loop_empty_text_cex :
    (cexOracle (initMessages emptyThreads "t1" "hi")).tool_calls = []
    ∧ (cexOracle (initMessages emptyThreads "t1" "hi")).content = some ""
    ∧ (agent_chat cexOracle plainExec emptyThreads "t1" "hi").1 = FAILURE_MESSAGE
    ∧ ¬ (agent_chat cexOracle plainExec emptyThreads "t1" "hi").1 = "" := by
  refine ⟨rfl, rfl, rfl, by decide⟩

/-- C6 witness: a no-tool-call reply with non-empty text ends the first
round with that text as the response; a one-tool-call reply appends
exactly one tool message and recurses; a loop that exhausts the ceiling
without any assistant text returns the generic failure message. -/
theorem agent_loop_spec_witness :
    runAgentLoop plainOracle plainExec 10 [Msg.user "x"]
      = ([Msg.user "x", Msg.assistant (some "Hi there.") []], "Hi there.")
    ∧ (agent_chat plainOracle plainExec emptyThreads "t1" "x").1 = "Hi there."
    ∧ runAgentLoop toolOracle plainExec 1 [Msg.user "x"]
      = runAgentLoop toolOracle plainExec 0
          ([Msg.user "x"]
            ++ [Msg.assistant Option.none [⟨"call1", "list_restaurants", "{}"⟩]]
            ++ [Msg.tool "call1" "{}"])
    ∧ (agent_chat toolOracle plainExec emptyThreads "t1" "x").1 = FAILURE_MESSAGE
    ∧ assistantCalls (runAgentLoop toolOracle plainExec 10 [Msg.user "x"]).1
        ≤ assistantCalls [Msg.user "x"] + 10 := by
  refine ⟨?_, ?_, ?_, ?_, agent_loop_spec.2.2.1 toolOracle plainExec 10 [Msg.user "x"]⟩
  · exact (agent_loop_spec.1 plainOracle plainExec 9 [Msg.user "x"] rfl).trans rfl
  · exact ((agent_loop_spec.2.2.2 plainOracle plainExec emptyThreads "t1" "x").1
      (by decide)).trans rfl
  · exact ((agent_loop_spec.2.1 toolOracle plainExec 0 [Msg.user "x"] (by decide)).1).trans
      rfl
  · exact ((agent_loop_spec.2.2.2 toolOracle plainExec emptyThreads "t1" "x").2
      (by decide)).trans rfl

/-- C7 witness: one concrete turn leaves the touched thread within the
20-message bound and every other thread untouched. -/
theorem thread_history_bounded_witness :
    countNonSystem (runTurns plainOracle plainExec [("t1", "hello")] "t1") ≤ 20
    ∧ (agent_chat plainOracle plainExec emptyThreads "t1" "hello").2 "t2"
        = emptyThreads "t2" := by
  refine ⟨thread_history_bounded.1 plainOracle plainExec [("t1", "hello")] "t1", ?_⟩
  exact (thread_history_bounded.2.1 plainOracle plainExec emptyThreads "t1" "hello").2
    "t2" (by decide)
